import Mathlib

/-!
Verification development for the answer-reconciliation and retrieval core of the
math-solver / multi-hop-reasoning repository.

The Python sources are shallowly embedded as executable Lean definitions:

* `src/math-solver-full .../src/verifier.py`        → section `Verifier`
* `src/math-solver-full .../src/self_consistency.py`→ `vote_answers`
* `src/math-solver-full .../src/normalizer.py`      → `normalize_answer`
* `src/math-solver-full .../src/few_shot_retriever.py` → `FewShotRetriever.load_or_compute_embeddings`
* `src/multi-hop-reasoning/utils/pattern_extractor.py` → section `PatternExtractor`
* `src/multi-hop-reasoning/indexing/semantic_index.py` → `SemanticIndex`

Modelling conventions, used throughout:

* Python strings are Lean `String`s; the ASCII fragment of `str.lower`,
  `str.isupper`, `\s` and `str.strip` is modelled exactly (the data processed
  by this repository is ASCII).
* Python floats that only carry confidence scores are modelled as `ℚ`.
  The verifier only compares and never does arithmetic on them, so this is
  exact.  Rational constants are written in lowest terms as raw numerator /
  denominator pairs so that they evaluate by `decide`.
* Python dicts with a fixed key set are modelled as structures whose fields are
  `Option`-valued when the source reads them with `dict.get` (a `none` field is
  an absent key).
* All definitions are structurally recursive (a fuel argument bounded by the
  input length replaces the non-structural scans of `re.sub` and
  `str.replace`), so every function evaluates inside the kernel.
-/

/-- The character class of the Python regex `\s` and of `str.strip` (ASCII). -/
def isPySpace (c : Char) : Bool :=
  c = ' ' || c = '\t' || c = '\n' || c = '\r' || c = '\x0b' || c = '\x0c'

/-- Python `str.strip()`: remove leading and trailing whitespace. -/
def pyStrip (s : String) : String :=
  String.mk (((s.data.dropWhile isPySpace).reverse.dropWhile isPySpace).reverse)

/-- Python `str.lower()` on ASCII text. -/
def pyLower (s : String) : String :=
  String.mk (s.data.map Char.toLower)

/-- One step of the scan behind Python `pat in s` (substring containment). -/
def containsAux (pat : List Char) : List Char → Bool
  | [] => pat.isEmpty
  | c :: rest => pat.isPrefixOf (c :: rest) || containsAux pat rest

/-- Python `pat in s`: substring containment test. -/
def strContains (s pat : String) : Bool :=
  containsAux pat.data s.data

/-- Python `s.replace(c, '')` for a single character `c` (removes every
occurrence). -/
def removeChar (s : String) (c : Char) : String :=
  String.mk (s.data.filter (fun d => d ≠ c))

/-- Python `s.replace(cc, '')` where the pattern is the character `c` doubled
(used for the `<<` and `>>` markers): a left-to-right non-overlapping scan. -/
def removeDouble (c : Char) : List Char → List Char
  | [] => []
  | [a] => [a]
  | a :: b :: rest =>
    if a = c ∧ b = c then removeDouble c rest
    else a :: removeDouble c (b :: rest)

/-- The whitespace tokenizer behind Python `str.split()` (no argument):
splits on runs of whitespace and discards empty tokens.  `cur` holds the
current word reversed. -/
def pySplitAux : List Char → List Char → List String
  | [], cur => if cur.isEmpty then [] else [String.mk cur.reverse]
  | c :: rest, cur =>
    if isPySpace c then
      if cur.isEmpty then pySplitAux rest []
      else String.mk cur.reverse :: pySplitAux rest []
    else pySplitAux rest (c :: cur)

/-- Python `str.split()` with no argument. -/
def pySplit (s : String) : List String :=
  pySplitAux s.data []

/-!
## Verifier  (`src/verifier.py`)

`pal_result` and `cot_result` are Python dicts read only through `dict.get`,
so they are modelled as records of `Option`-valued fields; `none` is a missing
key.  The `result` field stores the `str()` image of the Python value when it
is not `None` (every use of the value in `verify` factors through `str`), and
`none` models both a missing key and a stored `None`, which `dict.get`
makes indistinguishable.
-/

/-- A candidate-result dict as consumed by `Verifier.verify`. -/
structure PyResult where
  success : Option Bool := none
  result : Option String := none
  confidence : Option ℚ := none
deriving DecidableEq

/-- The dict returned by `Verifier.verify`. -/
structure ReconcileResult where
  final_answer : String
  method : String
  confidence : ℚ
deriving DecidableEq

/-- Python `str(x)` applied to an optional stored value: `str(None)` is
`"None"`. -/
def pyStr (v : Option String) : String :=
  v.getD "None"

/-- The float literal `0.6` of the source. -/
def rat06 : ℚ := ⟨3, 5, by decide, by decide⟩

/-- The float literal `0.65` of the source. -/
def rat065 : ℚ := ⟨13, 20, by decide, by decide⟩

/-- The float literal `0.7` of the source. -/
def rat07 : ℚ := ⟨7, 10, by decide, by decide⟩

/-- The float literal `0.75` of the source. -/
def rat075 : ℚ := ⟨3, 4, by decide, by decide⟩

/-- The verifier object: its only state is the
`prefer_pal_for_arithmetic` constructor flag (default `True`). -/
structure Verifier where
  prefer_pal : Bool := true
deriving DecidableEq

/-- `Verifier._normalize_answer`: stringify, strip, lowercase, remove commas,
dollar and percent signs, and all whitespace (`re.sub(r"\s+", "", s)`). -/
def Verifier.normalize_answer (answer : Option String) : String :=
  let s := pyLower (pyStrip (pyStr answer))
  let s := removeChar (removeChar (removeChar s ',') '$') '%'
  String.mk (s.data.filter (fun c => ¬ isPySpace c))

/-- The keyword list of `Verifier._is_arithmetic_question`. -/
def arithmeticIndicators : List String :=
  ["calculate", "compute", "how many", "how much",
   "total", "sum", "difference", "product", "quotient",
   "+", "-", "*", "/", "divide", "multiply",
   "cost", "price", "earn", "spend", "pay"]

/-- `Verifier._is_arithmetic_question`: any indicator occurs in the lowercased
question. -/
def Verifier.is_arithmetic_question (question : String) : Bool :=
  let q := pyLower question
  arithmeticIndicators.any (fun ind => strContains q ind)

/-- The keyword list of `Verifier._is_complex_word_problem`. -/
def complexityIndicators : List String :=
  ["every", "each", "doubles", "triples",
   "weekend", "weekday", "except",
   "both", "either", "between",
   "saturday", "sunday", "monday",
   "morning", "evening", "afternoon"]

/-- `Verifier._is_complex_word_problem`: at least two indicators occur in the
lowercased question. -/
def Verifier.is_complex_word_problem (question : String) : Bool :=
  let q := pyLower question
  decide (2 ≤ (complexityIndicators.countP (fun ind => strContains q ind)))

/-- `Verifier.verify`: reconcile the PAL and CoT results.  A direct
transcription of the four cases of the source, including the use of
`pal_result.get("success", False)` for PAL success,
`cot_result.get("result") is not None` for CoT success, and
`cot_result.get("confidence", 0.0)` for the CoT confidence. -/
def Verifier.verify (v : Verifier) (pal_result cot_result : PyResult)
    (question : String) : ReconcileResult :=
  let pal_success := pal_result.success.getD false
  let cot_success := cot_result.result.isSome
  let pal_answer := pal_result.result
  let cot_answer := cot_result.result
  let cot_confidence := cot_result.confidence.getD 0
  if pal_success && cot_success then
    if Verifier.normalize_answer pal_answer = Verifier.normalize_answer cot_answer then
      { final_answer := pyStr pal_answer, method := "both_agree", confidence := 1 }
    else
      let is_arithmetic := Verifier.is_arithmetic_question question
      let is_complex := Verifier.is_complex_word_problem question
      if is_complex && decide (rat065 ≤ cot_confidence) then
        { final_answer := pyStr cot_answer, method := "cot_complex_problem",
          confidence := cot_confidence }
      else if is_arithmetic && !is_complex && v.prefer_pal then
        { final_answer := pyStr pal_answer, method := "pal_simple_arithmetic",
          confidence := rat075 }
      else if rat07 ≤ cot_confidence then
        { final_answer := pyStr cot_answer, method := "cot_high_confidence",
          confidence := cot_confidence }
      else if rat06 ≤ cot_confidence then
        { final_answer := pyStr cot_answer, method := "cot_medium_confidence",
          confidence := cot_confidence }
      else
        { final_answer := pyStr pal_answer, method := "pal_default",
          confidence := rat065 }
  else if pal_success then
    { final_answer := pyStr pal_answer, method := "pal_only", confidence := rat07 }
  else if cot_success then
    { final_answer := pyStr cot_answer, method := "cot_only",
      confidence := max rat06 cot_confidence }
  else
    { final_answer := "0", method := "fallback", confidence := 0 }

/-- The ordered five-rule decision table for disagreeing candidates, written
from the words of the specification (rule 1 complex word problem, rule 2
simple arithmetic, rule 3 high CoT confidence, rule 4 medium CoT confidence,
rule 5 PAL default), to be compared with the disagreement branch of
`Verifier.verify`. -/
def specDisagreementTable (pal_result cot_result : PyResult)
    (question : String) : ReconcileResult :=
  let conf := cot_result.confidence.getD 0
  if Verifier.is_complex_word_problem question ∧ rat065 ≤ conf then
    { final_answer := pyStr cot_result.result, method := "cot_complex_problem",
      confidence := conf }
  else if Verifier.is_arithmetic_question question ∧
      ¬ Verifier.is_complex_word_problem question then
    { final_answer := pyStr pal_result.result, method := "pal_simple_arithmetic",
      confidence := rat075 }
  else if rat07 ≤ conf then
    { final_answer := pyStr cot_result.result, method := "cot_high_confidence",
      confidence := conf }
  else if rat06 ≤ conf then
    { final_answer := pyStr cot_result.result, method := "cot_medium_confidence",
      confidence := conf }
  else
    { final_answer := pyStr pal_result.result, method := "pal_default",
      confidence := rat065 }

/-!
## Self-consistency voting  (`src/self_consistency.py`)
-/

/-- The multiplicity of `x` in `l` (the count stored by `collections.Counter`). -/
def countOcc (l : List String) (x : String) : Nat :=
  (l.filter (fun y => y = x)).length

/-- Model of `Counter(l).most_common(1)[0]` for the list `l`.  A `Counter`
iterates its keys in first-insertion order and `most_common(1)` picks the
maximal count, ties resolved in favour of the earlier key; equivalently, it
returns the value at the first position of `l` whose count attains the maximal
count, together with that count.  (Defined for nonempty `l`; the `none` fallback
is unreachable there.) -/
def counterMostCommon (l : List String) : String × Nat :=
  let maxCount := (l.map (countOcc l)).foldr max 0
  match l.find? (fun k => countOcc l k = maxCount) with
  | some k => (k, countOcc l k)
  | none => ("", 0)

/-- `vote_answers` from `self_consistency.py`: majority vote over normalized
(strip + lowercase) answers, skipping falsy (empty-string) entries, with the
confidence `count / len(normalized)`; the returned answer is the stripped
first original entry whose normalization equals the majority value.
`normalizedVotes` is the list comprehension
`[a.strip().lower() for a in answers if a]` (only falsy entries, that is
empty strings, are skipped). -/
def normalizedVotes (answers : List String) : List String :=
  (answers.filter (fun a => a ≠ "")).map (fun a => pyLower (pyStrip a))

/-- See the comment above `normalizedVotes`. -/
def vote_answers (answers : List String) : Option String × ℚ :=
  if answers.isEmpty then (none, 0)
  else
    let normalized := normalizedVotes answers
    if normalized.isEmpty then (none, 0)
    else
      let mc := counterMostCommon normalized
      let confidence : ℚ := (mc.2 : ℚ) / (normalized.length : ℚ)
      match answers.find? (fun orig => pyLower (pyStrip orig) = mc.1) with
      | some orig => (some (pyStrip orig), confidence)
      | none => (some mc.1, confidence)

/-!
## Pattern extraction  (`src/multi-hop-reasoning/utils/pattern_extractor.py`)

Python `set` iteration order is unspecified; `list(set(xs))` and iteration over
a set are modelled as first-occurrence order, which none of the verified claims
depend on.
-/

/-- One reasoning hop (the `HopInfo` dataclass). -/
structure HopInfo where
  document_title : String
  sentence_id : Nat
  sentence_text : String
  entities_extracted : List String
  role : String
deriving DecidableEq

/-- The `ReasoningPattern` dataclass. -/
structure ReasoningPattern where
  question_id : String
  question : String
  question_type : String
  level : String
  num_hops : Nat
  hops : List HopInfo
  bridge_entity : Option String := none
  comparison_dimension : Option String := none
  answer : String := ""
deriving DecidableEq

/-- The double-quote character, written by code point to keep it out of the
source text. -/
def quoteChar : Char := Char.ofNat 34

/-- Model of `re.findall(r_dquote, text)` for the pattern that captures the
text between pairs of double quotes: a left-to-right scan collecting maximal
quote-delimited segments.  The fuel argument (instantiated with the text
length) makes the scan structurally recursive. -/
def findQuotedAux : Nat → List Char → List String
  | 0, _ => []
  | _, [] => []
  | fuel + 1, c :: rest =>
    if c = quoteChar then
      let inside := rest.takeWhile (fun d => d ≠ quoteChar)
      let rest2 := rest.dropWhile (fun d => d ≠ quoteChar)
      match rest2 with
      | [] => []
      | _ :: r2 => String.mk inside :: findQuotedAux fuel r2
    else findQuotedAux fuel rest

/-- All quoted substrings of `text`, in order. -/
def findQuoted (text : String) : List String :=
  findQuotedAux text.data.length text.data

/-- Does a word start with an uppercase character (`word[0].isupper()`)? -/
def startsUpper (word : String) : Bool :=
  (word.data.head?.map Char.isUpper).getD false

/-- The capitalized-run accumulator loop of `_extract_entities`: consecutive
words starting with an uppercase letter are joined into one entity; `cur`
holds the current run reversed. -/
def capitalRunsAux : List String → List String → List String
  | [], cur => if cur.isEmpty then [] else [String.intercalate " " cur.reverse]
  | w :: ws, cur =>
    if startsUpper w then capitalRunsAux ws (w :: cur)
    else if cur.isEmpty then capitalRunsAux ws []
    else String.intercalate " " cur.reverse :: capitalRunsAux ws []

/-- Model of `list(set(xs))`: deduplicate, keeping first occurrences
(set order is unspecified in Python; no claim depends on it). -/
def pySetList : List String → List String → List String
  | [], _ => []
  | a :: rest, seen =>
    if a ∈ seen then pySetList rest seen
    else a :: pySetList rest (a :: seen)

/-- `PatternExtractor._extract_entities`: quoted substrings plus maximal runs
of capitalized words, deduplicated. -/
def PatternExtractor.extract_entities (text : String) : List String :=
  let quoted := findQuoted text
  let runs := capitalRunsAux (pySplit text) []
  pySetList (quoted ++ runs) []

/-- `PatternExtractor._determine_hop_role`. -/
def PatternExtractor.determine_hop_role (hop_idx total_hops : Nat)
    (question_type : String) : String :=
  if question_type = "bridge" then
    if hop_idx = 0 then "starter"
    else if hop_idx = total_hops - 1 then "final"
    else "bridge"
  else "comparison"

/-- `PatternExtractor._find_bridge_entity`: the first common entity of the
first two hops, else the first hop-1 entity occurring (case-insensitively) in
the hop-2 sentence, else `none`. -/
def PatternExtractor.find_bridge_entity (hops : List HopInfo) : Option String :=
  match hops with
  | h1 :: h2 :: _ =>
    let common := h1.entities_extracted.filter (fun e => e ∈ h2.entities_extracted)
    match common with
    | c :: _ => some c
    | [] => h1.entities_extracted.find? (fun e => strContains (pyLower h2.sentence_text) (pyLower e))
  | _ => none

/-- The keyword table of `_find_comparison_dimension`, in source (dict
insertion) order. -/
def comparisonDimensions : List (String × List String) :=
  [("date", ["first", "earlier", "before", "founded", "started", "established"]),
   ("size", ["larger", "bigger", "smaller", "size", "area"]),
   ("quantity", ["more", "less", "most", "least", "number"]),
   ("location", ["where", "located", "place"]),
   ("duration", ["longer", "shorter", "duration", "time"])]

/-- `PatternExtractor._find_comparison_dimension`: the first dimension with a
keyword occurring in the lowercased question, else `"unknown"`. -/
def PatternExtractor.find_comparison_dimension (question : String) : String :=
  let q := pyLower question
  match comparisonDimensions.find? (fun dim => dim.2.any (fun kw => strContains q kw)) with
  | some dim => dim.1
  | none => "unknown"

/-- Python `doc_title in context` / `context[doc_title]` on the
document-title-to-sentences mapping, modelled as first-match lookup in an
association list (dict keys are unique). -/
def lookupCtx (context : List (String × List String)) (doc_title : String) :
    Option (List String) :=
  (context.find? (fun p => p.1 = doc_title)).map (fun p => p.2)

/-- The body of the supporting-fact loop of `extract_pattern` for the
enumerated reference `(idx, (doc_title, sent_id))`: `none` when the document is
absent from the context or the sentence index is out of range (that reference
is silently skipped), otherwise the constructed hop, whose role is computed
from `idx` and the total number of supporting-fact references. -/
def PatternExtractor.mkHop (context : List (String × List String))
    (total : Nat) (question_type : String) (p : Nat × (String × Nat)) :
    Option HopInfo :=
  match lookupCtx context p.2.1 with
  | none => none
  | some sentences =>
    if p.2.2 < sentences.length then
      let sentence_text := sentences.getD p.2.2 ""
      some { document_title := p.2.1,
             sentence_id := p.2.2,
             sentence_text := sentence_text,
             entities_extracted := PatternExtractor.extract_entities sentence_text,
             role := PatternExtractor.determine_hop_role p.1 total question_type }
    else none

/-- `PatternExtractor.extract_pattern`. -/
def PatternExtractor.extract_pattern (question_id question question_type level : String)
    (supporting_facts : List (String × Nat))
    (context : List (String × List String)) (answer : String) : ReasoningPattern :=
  let hops := supporting_facts.enum.filterMap
    (PatternExtractor.mkHop context supporting_facts.length question_type)
  let bridge_entity :=
    if question_type = "bridge" ∧ 2 ≤ hops.length then
      PatternExtractor.find_bridge_entity hops
    else none
  let comparison_dim :=
    if question_type = "comparison" then
      some (PatternExtractor.find_comparison_dimension question)
    else none
  { question_id := question_id,
    question := question,
    question_type := question_type,
    level := level,
    num_hops := hops.length,
    hops := hops,
    bridge_entity := bridge_entity,
    comparison_dimension := comparison_dim,
    answer := answer }

/-- Is a supporting-fact reference resolvable against the context (document
present and sentence index in range)?  Exactly the condition under which
`extract_pattern` keeps the reference. -/
def resolvableRef (context : List (String × List String)) (r : String × Nat) : Bool :=
  match lookupCtx context r.1 with
  | some sentences => r.2 < sentences.length
  | none => false

/-!
## Semantic index  (`src/multi-hop-reasoning/indexing/semantic_index.py`)

The faiss `IndexFlatIP` is modelled as the list of its stored vectors, over
`ℚ`; its exact search returns the indices of the `k` highest inner products
with the query, in descending score order (a stable sort of the index range).
`faiss.normalize_L2` rescales the query by a nonnegative scalar and stores
L2-normalized copies of the embeddings; rescaling the query never changes the
inner-product ranking, and no claim below depends on scores, so normalization
is not re-modelled.  Real faiss pads with index `-1` when more results are
requested than stored vectors; `SemanticIndex.search` clamps `k` first and
then drops out-of-range indices, which makes the padding unreachable, so the
model simply truncates.
-/

/-- The inner product of two vectors (trailing entries of the longer vector
are ignored, as with equal-dimension vectors they do not arise). -/
def dotQ (a b : List ℚ) : ℚ :=
  (List.zipWith (fun x y => x * y) a b).sum

/-- Indices `0, ..., n-1` sorted by descending score (stable). -/
def argsortDesc (scores : List ℚ) : List Nat :=
  List.insertionSort (fun i j => scores.getD j 0 ≤ scores.getD i 0)
    (List.range scores.length)

/-- The faiss flat inner-product index: the stored embedding matrix. -/
structure FaissFlatIndex where
  vectors : List (List ℚ)

/-- Exact inner-product search: the indices of the `k` best-scoring stored
vectors, best first. -/
def FaissFlatIndex.search (idx : FaissFlatIndex) (query : List ℚ) (k : Nat) :
    List Nat :=
  (argsortDesc (idx.vectors.map (fun v => dotQ query v))).take k

/-- The `IndexedExample` dataclass. -/
structure IndexedExample where
  id : String
  question : String
  question_type : String
  level : String
  pattern : ReasoningPattern
  embedding : List ℚ

/-- The `SemanticIndex` object.  `indices` models the two-level dict
`self.indices` (`none` at the outer level: question type not a key; `none` at
the inner level: level not a key, or stored value `None` — both make `search`
return  the empty list).  `indexed_examples` models `self.indexed_examples` as
a total map; categories never touched hold `[]`, the value `__init__` gives
every category. -/
structure SemanticIndex where
  dimension : Nat
  indices : String → Option (String → Option FaissFlatIndex)
  indexed_examples : String → String → List IndexedExample

/-- The state `SemanticIndex.__init__` builds: outer keys `bridge` and
`comparison` with empty inner dicts, and empty example lists everywhere. -/
def SemanticIndex.init (dimension : Nat) : SemanticIndex :=
  { dimension := dimension,
    indices := fun q_type =>
      if q_type = "bridge" ∨ q_type = "comparison" then some (fun _ => none)
      else none,
    indexed_examples := fun _ _ => [] }

/-- `SemanticIndex.search`: empty on an unknown question type or level, empty
when the stored index is missing or the category has no examples, otherwise
the examples at the top-`k` indices (with `k` clamped to the example count and
out-of-range indices dropped, as in the list comprehension of the source). -/
def SemanticIndex.search (s : SemanticIndex) (query_embedding : List ℚ)
    (question_type level : String) (top_k : Nat) : List IndexedExample :=
  match s.indices question_type with
  | none => []
  | some inner =>
    match inner level with
    | none => []
    | some index =>
      let examples := s.indexed_examples question_type level
      if examples.length = 0 then []
      else
        let k := min top_k examples.length
        (index.search query_embedding k).filterMap (fun idx => examples.get? idx)

/-- The outcome of opening and unpickling a file. -/
inductive PklFile (α : Type) where
  | missing
  | unreadable
  | content (v : α)

/-- `SemanticIndex.load`: reads every per-category faiss index file that
exists into `self.indices`, then opens `indexed_examples.pkl` and replaces
`self.indexed_examples` with whatever it unpickles to — with no validation of
any kind.  A missing or unreadable pickle file raises out of `load`
(modelled as `Except.error`); nothing triggers a rebuild. -/
def SemanticIndex.load (s : SemanticIndex)
    (indexFiles : String → String → Option FaissFlatIndex)
    (pklFile : PklFile (String → String → List IndexedExample)) :
    Except String SemanticIndex :=
  let newIndices : String → Option (String → Option FaissFlatIndex) :=
    fun q_type =>
      if q_type = "bridge" ∨ q_type = "comparison" then
        some (fun level =>
          if level = "easy" ∨ level = "medium" ∨ level = "hard" then
            match indexFiles q_type level with
            | some idx => some idx
            | none => (s.indices q_type).bind (fun inner => inner level)
          else (s.indices q_type).bind (fun inner => inner level))
      else s.indices q_type
  match pklFile with
  | .missing => .error "FileNotFoundError"
  | .unreadable => .error "UnpicklingError"
  | .content examples =>
    .ok { s with indices := newIndices, indexed_examples := examples }

/-!
## Few-shot retriever cache  (`src/few_shot_retriever.py`)

Only the validation logic of `_load_or_compute_embeddings` is modelled: the
unpickled object is described by whether it is a numpy array, its `ndim`,
`shape[0]` and whether its dtype is `object`; recomputation is an abstract
outcome.
-/

/-- Description of the object unpickled from the embeddings cache. -/
inductive CachedVal where
  | ndarray (ndim : Nat) (shape0 : Nat) (dtype_is_object : Bool)
  | other
deriving DecidableEq

/-- The embeddings cache file as `_load_or_compute_embeddings` encounters it. -/
inductive CacheFile where
  | missing
  | unreadable
  | content (v : CachedVal)
deriving DecidableEq

/-- What `_load_or_compute_embeddings` returns: a validated cached array, or
the result of a fresh `_compute_embeddings` run. -/
inductive LoadOutcome where
  | cached (v : CachedVal)
  | recomputed
deriving DecidableEq

/-- `FewShotRetriever._load_or_compute_embeddings` given the state of the
cache file and `len(self.training_data)`: the cached object is used only when
it is a numpy array of non-`object` dtype with `ndim == 2` and
`shape[0] == len(training_data)`; every other case (missing file, unpickling
error, non-array, `object` dtype, 1-D array, wrong shape) falls through to
recomputation and never raises. -/
def FewShotRetriever.load_or_compute_embeddings (file : CacheFile)
    (n_training : Nat) : LoadOutcome :=
  match file with
  | .missing => .recomputed
  | .unreadable => .recomputed
  | .content v =>
    match v with
    | .ndarray ndim shape0 dtype_is_object =>
      if dtype_is_object then .recomputed
      else if ndim = 2 ∧ shape0 = n_training then .cached v
      else .recomputed
    | .other => .recomputed

/-!
## Answer normalizer  (`src/normalizer.py`)

`normalize_answer` only ever applies `float()` to decimal/exponent literals
and reformats them, so the parsed value is modelled as an exact scaled decimal
`mant / 10 ^ scale` instead of a binary double.  Where binary doubles and
exact decimals part ways (double rounding inside `"%.2f"` of values such as
`0.005`, the shortest-repr algorithm on inputs with more than 17 significant
digits, `inf`/`nan` literals, underscore digit separators), the model keeps
the exact-decimal reading; no claim below depends on those corners, and the
two concrete inputs of the specification are exactly representable either
way. -/

/-- An exact decimal number `mant / 10 ^ scale` (the model of the value a
Python `float()` call produces inside `normalize_answer`). -/
structure DecFloat where
  mant : Int
  scale : Nat
deriving DecidableEq

/-- Build the decimal for mantissa `mant`, parsed exponent `expTen` and
`fracLen` digits after the decimal point. -/
def mkDec (mant expTen fracLen : Int) : DecFloat :=
  let e := expTen - fracLen
  if e < 0 then { mant := mant, scale := e.natAbs }
  else { mant := mant * (10 : Int) ^ e.toNat, scale := 0 }

/-- The numeric value of a run of decimal digit characters. -/
def digitsVal (cs : List Char) : Nat :=
  cs.foldl (fun n c => n * 10 + (c.toNat - 48)) 0

/-- Model of Python `float(s)` on the decimal/exponent literal grammar
`[+-]? (digits [. digits?] | . digits) ([eE] [+-]? digits)?` (the only shapes
`normalize_answer` meets); other inputs — including `inf` and `nan` — give
`none`, the model of `ValueError`. -/
def pyFloatParse (s : String) : Option DecFloat :=
  let cs := s.data
  let signAndRest : Int × List Char :=
    match cs with
    | '+' :: r => (1, r)
    | '-' :: r => (-1, r)
    | r => (1, r)
  let sign := signAndRest.1
  let cs1 := signAndRest.2
  let intPart := cs1.takeWhile Char.isDigit
  let rest1 := cs1.dropWhile Char.isDigit
  let fracAndRest : List Char × List Char :=
    match rest1 with
    | '.' :: r => (r.takeWhile Char.isDigit, r.dropWhile Char.isDigit)
    | r => ([], r)
  let fracPart := fracAndRest.1
  let rest2 := fracAndRest.2
  if intPart.isEmpty ∧ fracPart.isEmpty then none
  else
    let mant : Int := sign * (digitsVal (intPart ++ fracPart) : Int)
    match rest2 with
    | [] => some (mkDec mant 0 fracPart.length)
    | e :: r =>
      if e = 'e' ∨ e = 'E' then
        let esignAndRest : Int × List Char :=
          match r with
          | '+' :: rr => (1, rr)
          | '-' :: rr => (-1, rr)
          | rr => (1, rr)
        let eDigits := esignAndRest.2.takeWhile Char.isDigit
        let r2 := esignAndRest.2.dropWhile Char.isDigit
        if eDigits.isEmpty ∨ ¬ r2.isEmpty then none
        else some (mkDec mant (esignAndRest.1 * (digitsVal eDigits : Int)) fracPart.length)
      else none

/-- Python `int()` truncation (toward zero) of a decimal value. -/
def DecFloat.trunc (d : DecFloat) : Int :=
  Int.tdiv d.mant ((10 : Int) ^ d.scale)

/-- Python `float.is_integer`. -/
def DecFloat.isInteger (d : DecFloat) : Bool :=
  d.mant % ((10 : Int) ^ d.scale) = 0

/-- Round `n / d` (`d > 0`) to the nearest integer, ties to even — the
rounding of Python `"%.2f"` formatting, applied to the exact value. -/
def roundHalfEvenDiv (n d : Int) : Int :=
  let q := Int.fdiv n d
  let r := n - q * d
  if 2 * r < d then q
  else if d < 2 * r then q + 1
  else if q % 2 = 0 then q else q + 1

/-- Left-pad a string with zeros to the given length. -/
def padLeftZeros (s : String) (n : Nat) : String :=
  String.mk (List.replicate (n - s.length) '0') ++ s

/-- Python `f"{num:.2f}"` on an exact decimal value (including the `-0.00`
sign behaviour for negative values rounding to zero). -/
def formatFixed2 (d : DecFloat) : String :=
  let cents := roundHalfEvenDiv (d.mant * 100) ((10 : Int) ^ d.scale)
  let neg := cents < 0 ∨ (cents = 0 ∧ d.mant < 0)
  let a := cents.natAbs
  (if neg then "-" else "") ++ toString (a / 100) ++ "." ++
    padLeftZeros (toString (a % 100)) 2

/-- Remove trailing decimal zeros: the minimal `(mant, scale)` representation
of the same value (structural in `scale`). -/
def stripTrailingZeros : Int → Nat → Int × Nat
  | m, 0 => (m, 0)
  | m, s + 1 => if m % 10 = 0 then stripTrailingZeros (Int.tdiv m 10) s else (m, s + 1)

/-- Render `m / 10 ^ s` (`1 ≤ s`, last digit of `m` nonzero) as a plain
decimal string. -/
def renderDec (m : Int) (s : Nat) : String :=
  let ds := padLeftZeros (toString m.natAbs) (s + 1)
  let ip := ds.data.take (ds.data.length - s)
  let fp := ds.data.drop (ds.data.length - s)
  (if m < 0 then "-" else "") ++ String.mk ip ++ "." ++ String.mk fp

/-- Python `str(float)` for the non-integer decimal values reaching the final
branch of `normalize_answer`: the shortest decimal form. -/
def renderFloat (d : DecFloat) : String :=
  let ms := stripTrailingZeros d.mant d.scale
  if ms.2 = 0 then toString ms.1
  else renderDec ms.1 ms.2

/-- The backtick character, written by code point. -/
def backquoteChar : Char := Char.ofNat 96

/-- One pass of `re.sub(r"####\s*", "", answer)`: remove every occurrence of
four hash marks together with the whitespace run following them, scanning
left to right (fuel-structural; the fuel is the text length). -/
def stripHashAux : Nat → List Char → List Char
  | 0, s => s
  | _, [] => []
  | fuel + 1, '#' :: '#' :: '#' :: '#' :: r => stripHashAux fuel (r.dropWhile isPySpace)
  | fuel + 1, c :: rest => c :: stripHashAux fuel rest

/-- The markdown-cleaning prefix of `normalize_answer`: strip, remove
`####`-plus-whitespace, remove the characters `* \x60 [ ]`, remove `<<` and
`>>`. -/
def cleanAnswer (answer : String) : String :=
  let a := pyStrip answer
  let a := String.mk (stripHashAux a.data.length a.data)
  let a := String.mk (a.data.filter
    (fun c => ¬ (c = '*' ∨ c = backquoteChar ∨ c = '[' ∨ c = ']')))
  String.mk (removeDouble '>' (removeDouble '<' a.data))

/-- The string the source tries to parse:
`answer.replace("$", "").replace(",", "").strip()`. -/
def numStrOf (cleaned : String) : String :=
  pyStrip (removeChar (removeChar cleaned '$') ',')

/-- A Python number as `normalize_answer` holds it: an `int` (from
`int(float(num_str))`) or a `float`. -/
inductive PyNum where
  | intVal (n : Int)
  | floatVal (d : DecFloat)
deriving DecidableEq

/-- The parse step of `normalize_answer`: `float(num_str)` when `num_str`
contains a dot or an `e`/`E`, otherwise `int(float(num_str))`; `none` is the
caught `ValueError`. -/
def parsedNumOf (cleaned : String) : Option PyNum :=
  let num_str := numStrOf cleaned
  if strContains num_str "." || strContains (pyLower num_str) "e" then
    (pyFloatParse num_str).map PyNum.floatVal
  else
    (pyFloatParse num_str).map (fun d => PyNum.intVal d.trunc)

/-- Python `int(num)` for either kind of number. -/
def PyNum.trunc : PyNum → Int
  | .intVal n => n
  | .floatVal d => d.trunc

/-- The decimal value of either kind of number (for `"%.2f"` formatting). -/
def PyNum.toDec : PyNum → DecFloat
  | .intVal n => { mant := n, scale := 0 }
  | .floatVal d => d

/-- The currency test of `normalize_answer`: a dollar sign in the raw
question, or `dollar`/`cost`/`price` in the lowercased question. -/
def currencyQuestion (question : String) : Bool :=
  strContains question "$" || strContains (pyLower question) "dollar" ||
    strContains (pyLower question) "cost" || strContains (pyLower question) "price"

/-- `normalize_answer` from `normalizer.py`. -/
def normalize_answer (answer question : String) : String :=
  let cleaned := cleanAnswer answer
  let question_lower := pyLower question
  match parsedNumOf cleaned with
  | none => pyStrip cleaned
  | some num =>
    if strContains question_lower "how many" then toString num.trunc
    else if currencyQuestion question then formatFixed2 num.toDec
    else
      match num with
      | .intVal n => toString n
      | .floatVal d => if d.isInteger then toString d.trunc else renderFloat d

/-!
## Claims about the verifier
-/

/-- C1: for every pair of candidate results where both succeeded and the
normalized values are equal, `Verifier.verify` returns the PAL value
stringified with method `both_agree` and confidence `1.0`, regardless of the
question text and of the `prefer_pal_for_arithmetic` flag. -/
theorem C1_both_agree (v : Verifier) (pal cot : PyResult) (q : String)
    (hpal : pal.success.getD false = true)
    (hcot : cot.result.isSome = true)
    (hnorm : Verifier.normalize_answer pal.result = Verifier.normalize_answer cot.result) :
    v.verify pal cot q =
      { final_answer := pyStr pal.result, method := "both_agree", confidence := 1 } := by
  simp [Verifier.verify, hpal, hcot, hnorm]

/-- Witness for C1 at a concrete agreeing pair (`"8"` against `" 8 "`). -/
theorem C1_both_agree_witness :
    (({ success := some true, result := some "8" } : PyResult).success.getD false = true)
    ∧ (({ result := some " 8 ", confidence := some rat06 } : PyResult).result.isSome = true)
    ∧ Verifier.normalize_answer (some "8") = Verifier.normalize_answer (some " 8 ")
    ∧ Verifier.verify { prefer_pal := true }
        { success := some true, result := some "8" }
        { result := some " 8 ", confidence := some rat06 } "what?" =
      { final_answer := pyStr (some "8"), method := "both_agree", confidence := 1 } :=
  ⟨by decide, by decide, by decide,
    C1_both_agree { prefer_pal := true }
      { success := some true, result := some "8" }
      { result := some " 8 ", confidence := some rat06 } "what?"
      (by decide) (by decide) (by decide)⟩

/-- C2: for every pair of succeeded candidates whose normalized values
differ, `Verifier.verify` with the default `prefer_pal_for_arithmetic = True`
follows exactly the ordered five-rule decision table of the specification
(complex word problem with confidence at least 0.65, then simple arithmetic,
then CoT confidence at least 0.70, then at least 0.60, then the PAL default);
in particular the complex-word-problem rule precedes the arithmetic rule. -/
theorem C2_disagreement_rule_order (pal cot : PyResult) (q : String)
    (hpal : pal.success.getD false = true)
    (hcot : cot.result.isSome = true)
    (hnorm : Verifier.normalize_answer pal.result ≠ Verifier.normalize_answer cot.result) :
    Verifier.verify { prefer_pal := true } pal cot q = specDisagreementTable pal cot q := by
  simp [Verifier.verify, specDisagreementTable, hpal, hcot, hnorm]

/-- Witness for C2: a question matching both `is_arithmetic_question` and
`is_complex_word_problem`, with CoT confidence `0.66`, lands on
`cot_complex_problem`. -/
theorem C2_disagreement_rule_order_witness :
    (({ success := some true, result := some "5" } : PyResult).success.getD false = true)
    ∧ (({ result := some "7", confidence := some ⟨33, 50, by decide, by decide⟩ } : PyResult).result.isSome = true)
    ∧ Verifier.normalize_answer (some "5") ≠ Verifier.normalize_answer (some "7")
    ∧ Verifier.is_arithmetic_question "every day each cat: calculate" = true
    ∧ Verifier.is_complex_word_problem "every day each cat: calculate" = true
    ∧ Verifier.verify { prefer_pal := true }
        { success := some true, result := some "5" }
        { result := some "7", confidence := some ⟨33, 50, by decide, by decide⟩ }
        "every day each cat: calculate" =
      { final_answer := "7", method := "cot_complex_problem",
        confidence := ⟨33, 50, by decide, by decide⟩ } :=
  ⟨by decide, by decide, by decide, by decide, by decide,
    (C2_disagreement_rule_order
      { success := some true, result := some "5" }
      { result := some "7", confidence := some ⟨33, 50, by decide, by decide⟩ }
      "every day each cat: calculate" (by decide) (by decide) (by decide)).trans
      (by decide)⟩

/-- C3: when exactly one candidate succeeded, `Verifier.verify` returns that
candidate stringified: `pal_only` with confidence 0.70 when only PAL
succeeded, `cot_only` with confidence `max 0.60 cot.confidence` when only CoT
succeeded. -/
theorem C3_single_success (v : Verifier) (pal cot : PyResult) (q : String) :
    (pal.success.getD false = true → cot.result = none →
      v.verify pal cot q =
        { final_answer := pyStr pal.result, method := "pal_only", confidence := rat07 })
    ∧ (pal.success.getD false = false → cot.result.isSome = true →
      v.verify pal cot q =
        { final_answer := pyStr cot.result, method := "cot_only",
          confidence := max rat06 (cot.confidence.getD 0) }) := by
  constructor
  · intro hpal hcot
    simp [Verifier.verify, hpal, hcot]
  · intro hpal hcot
    simp [Verifier.verify, hpal, hcot]

/-- Witness for C3 at one PAL-only and one CoT-only concrete pair. -/
theorem C3_single_success_witness :
    Verifier.verify { prefer_pal := true }
        { success := some true, result := some "12" } { confidence := some rat07 } "q" =
      { final_answer := pyStr (some "12"), method := "pal_only", confidence := rat07 }
    ∧ Verifier.verify { prefer_pal := true }
        { success := some false } { result := some "9", confidence := some rat075 } "q" =
      { final_answer := pyStr (some "9"), method := "cot_only",
        confidence := max rat06 ((({ result := some "9", confidence := some rat075 } : PyResult)).confidence.getD 0) } :=
  ⟨(C3_single_success { prefer_pal := true }
      { success := some true, result := some "12" } { confidence := some rat07 } "q").1
      (by decide) (by decide),
   (C3_single_success { prefer_pal := true }
      { success := some false } { result := some "9", confidence := some rat075 } "q").2
      (by decide) (by decide)⟩

/-- C4: when neither candidate succeeded, `Verifier.verify` returns the fixed
sentinel: answer `"0"`, method `fallback`, confidence `0.0` (it is a total
function, so it never raises). -/
theorem C4_fallback (v : Verifier) (pal cot : PyResult) (q : String)
    (hpal : pal.success.getD false = false)
    (hcot : cot.result = none) :
    v.verify pal cot q = { final_answer := "0", method := "fallback", confidence := 0 } := by
  simp [Verifier.verify, hpal, hcot]

/-- Witness for C4 at the empty dicts. -/
theorem C4_fallback_witness :
    Verifier.verify { prefer_pal := true } {} {} "q" =
      { final_answer := "0", method := "fallback", confidence := 0 } :=
  C4_fallback { prefer_pal := true } {} {} "q" (by decide) (by decide)

/-- C10: `Verifier.verify` is total over arbitrary candidate dicts: a missing
`success` key on the PAL side is the same as an explicit `False`, a missing
CoT `confidence` key the same as an explicit `0.0`, the CoT `success` field
and the PAL `confidence` field are never consulted (CoT success is its
`result` being non-`None`), and the result is always one of the nine
reconciliation dicts. -/
theorem C10_totality (v : Verifier) (pal cot : PyResult) (q : String) :
    (v.verify { success := none, result := pal.result, confidence := pal.confidence } cot q
      = v.verify { success := some false, result := pal.result, confidence := pal.confidence } cot q)
    ∧ (v.verify pal { success := cot.success, result := cot.result, confidence := none } q
      = v.verify pal { success := cot.success, result := cot.result, confidence := some 0 } q)
    ∧ (v.verify pal { success := none, result := cot.result, confidence := cot.confidence } q
      = v.verify pal cot q)
    ∧ (v.verify { success := pal.success, result := pal.result, confidence := none } cot q
      = v.verify pal cot q)
    ∧ (v.verify pal cot q).method ∈
        ["both_agree", "cot_complex_problem", "pal_simple_arithmetic",
         "cot_high_confidence", "cot_medium_confidence", "pal_default",
         "pal_only", "cot_only", "fallback"] := by
  refine ⟨rfl, rfl, rfl, rfl, ?_⟩
  simp only [Verifier.verify]
  split_ifs <;> simp

/-!
## Claims about self-consistency voting
-/

/-- Decomposition at the first hit of a successful `List.find?`. -/
theorem find?_split {α : Type} (p : α → Bool) :
    ∀ (l : List α) (a : α), l.find? p = some a →
      ∃ s t, l = s ++ a :: t ∧ (∀ x ∈ s, p x = false) ∧ p a = true := by
  intro l
  induction l with
  | nil => intro a h; simp [List.find?] at h
  | cons c rest ih =>
    intro a h
    by_cases hc : p c
    · rw [List.find?_cons_of_pos _ hc] at h
      obtain rfl : c = a := by simpa using h
      exact ⟨[], rest, rfl, by simp, hc⟩
    · rw [List.find?_cons_of_neg _ (by simpa using hc)] at h
      obtain ⟨s, t, heq, hs, hp⟩ := ih a h
      refine ⟨c :: s, t, by rw [heq]; rfl, ?_, hp⟩
      intro x hx
      rcases List.mem_cons.mp hx with rfl | hx
      · simpa using hc
      · exact hs x hx

/-- Every member of a list of naturals is at most its `foldr max 0`. -/
theorem le_foldrMax (L : List Nat) : ∀ x ∈ L, x ≤ L.foldr max 0 := by
  induction L with
  | nil => simp
  | cons a t ih =>
    intro x hx
    rcases List.mem_cons.mp hx with rfl | hx
    · exact le_max_left _ _
    · exact le_trans (ih x hx) (le_max_right _ _)

/-- The `foldr max 0` of a list of naturals is zero or attained. -/
theorem foldrMax_attained (L : List Nat) : L.foldr max 0 = 0 ∨ L.foldr max 0 ∈ L := by
  induction L with
  | nil => simp
  | cons a t ih =>
    rcases le_total a (t.foldr max 0) with hle | hle
    · rw [List.foldr_cons, max_eq_right hle]
      rcases ih with h0 | hmem
      · exact Or.inl h0
      · exact Or.inr (List.mem_cons_of_mem _ hmem)
    · rw [List.foldr_cons, max_eq_left hle]
      exact Or.inr (List.mem_cons_self _ _)

/-- A member of a list occurs in it with positive multiplicity. -/
theorem countOcc_pos {l : List String} {x : String} (h : x ∈ l) : 0 < countOcc l x :=
  List.length_pos_of_mem (List.mem_filter.mpr ⟨h, by simp⟩)

/-- Characterization of `counterMostCommon` on a nonempty list: it returns a
value `w` of the list together with its multiplicity, the multiplicity is
maximal, and every value occurring strictly before the first occurrence of
`w` has strictly smaller multiplicity (the first-insertion tie-break of
`Counter.most_common`). -/
theorem counterMostCommon_spec (l : List String) (hl : l ≠ []) :
    ∃ w pre post,
      counterMostCommon l = (w, countOcc l w)
      ∧ l = pre ++ w :: post
      ∧ (∀ k ∈ l, countOcc l k ≤ countOcc l w)
      ∧ (∀ k ∈ pre, countOcc l k < countOcc l w) := by
  have hmem : (l.map (countOcc l)).foldr max 0 ∈ l.map (countOcc l) := by
    rcases foldrMax_attained (l.map (countOcc l)) with h0 | h
    · obtain ⟨a, t, rfl⟩ := List.exists_cons_of_ne_nil hl
      have h1 : countOcc (a :: t) a ≤ ((a :: t).map (countOcc (a :: t))).foldr max 0 :=
        le_foldrMax _ _ (List.mem_map_of_mem _ (List.mem_cons_self _ _))
      have h2 : 0 < countOcc (a :: t) a := countOcc_pos (List.mem_cons_self _ _)
      omega
    · exact h
  obtain ⟨w0, hw0l, hw0⟩ := List.mem_map.mp hmem
  have hsome : (l.find? (fun k =>
      countOcc l k = (l.map (countOcc l)).foldr max 0)).isSome := by
    rw [List.find?_isSome]
    exact ⟨w0, hw0l, by simpa using hw0⟩
  obtain ⟨w, hfind⟩ := Option.isSome_iff_exists.mp hsome
  have hw : countOcc l w = (l.map (countOcc l)).foldr max 0 := by
    have := List.find?_some hfind
    simpa using this
  obtain ⟨pre, post, heq, hpre, _⟩ := find?_split _ l w hfind
  refine ⟨w, pre, post, ?_, heq, ?_, ?_⟩
  · simp only [counterMostCommon]
    rw [hfind]
  · intro k hk
    have : countOcc l k ≤ (l.map (countOcc l)).foldr max 0 :=
      le_foldrMax _ _ (List.mem_map_of_mem _ hk)
    omega
  · intro k hk
    have hkl : k ∈ l := by
      rw [heq]; exact List.mem_append_left _ hk
    have hle : countOcc l k ≤ (l.map (countOcc l)).foldr max 0 :=
      le_foldrMax _ _ (List.mem_map_of_mem _ hkl)
    have hne : countOcc l k ≠ (l.map (countOcc l)).foldr max 0 := by
      have := hpre k hk
      simpa using this
    omega

/-- C5: `vote_answers` returns `("8", 2/3)` on `["8", "8", "9"]` and
`(none, 0.0)` on an empty or all-empty input; in general, when no usable
(non-empty) entry exists it returns `(none, 0.0)`, and otherwise it returns
the stripped first original whose strip-lowercase normalization equals a
majority value `w` of the normalized list — `w` has maximal multiplicity,
every value first occurring before `w` has strictly smaller multiplicity
(first-occurrence tie-break), and the confidence is the multiplicity of `w`
divided by the number of usable entries. -/
theorem C5_vote_majority :
    vote_answers ["8", "8", "9"] = (some "8", (2 : ℚ) / 3)
    ∧ vote_answers [] = (none, 0)
    ∧ vote_answers ["", ""] = (none, 0)
    ∧ (∀ answers : List String, answers.filter (fun a => a ≠ "") = [] →
        vote_answers answers = (none, 0))
    ∧ (∀ answers : List String, answers.filter (fun a => a ≠ "") ≠ [] →
        ∃ w orig pre post,
          normalizedVotes answers = pre ++ w :: post
          ∧ (∀ k ∈ normalizedVotes answers,
              countOcc (normalizedVotes answers) k ≤ countOcc (normalizedVotes answers) w)
          ∧ (∀ k ∈ pre,
              countOcc (normalizedVotes answers) k < countOcc (normalizedVotes answers) w)
          ∧ answers.find? (fun o => pyLower (pyStrip o) = w) = some orig
          ∧ vote_answers answers =
              (some (pyStrip orig),
                (countOcc (normalizedVotes answers) w : ℚ) /
                  ((normalizedVotes answers).length : ℚ))) := by
  refine ⟨rfl, rfl, rfl, ?_, ?_⟩
  · intro answers h
    by_cases he : answers.isEmpty
    · simp [vote_answers, he]
    · have hn : normalizedVotes answers = [] := by
        unfold normalizedVotes
        rw [h]
        rfl
      simp [vote_answers, he, hn]
  · intro answers h
    have hne : answers ≠ [] := by
      intro hnil
      rw [hnil] at h
      simp at h
    have hnorm_ne : normalizedVotes answers ≠ [] := by
      simp only [normalizedVotes]
      intro hh
      exact h (List.map_eq_nil_iff.mp hh)
    obtain ⟨w, pre, post, hmc, heq, hmax, hpre⟩ := counterMostCommon_spec _ hnorm_ne
    have hw_mem : w ∈ normalizedVotes answers := by
      rw [heq]
      exact List.mem_append_right _ (List.mem_cons_self _ _)
    obtain ⟨a, ha_filter, ha_eq⟩ := List.mem_map.mp hw_mem
    have ha_mem : a ∈ answers := (List.mem_filter.mp ha_filter).1
    have hfind_some : (answers.find? (fun o => pyLower (pyStrip o) = w)).isSome := by
      rw [List.find?_isSome]
      exact ⟨a, ha_mem, by simpa using ha_eq⟩
    obtain ⟨orig, hfind⟩ := Option.isSome_iff_exists.mp hfind_some
    refine ⟨w, orig, pre, post, heq, hmax, hpre, hfind, ?_⟩
    have he : answers.isEmpty = false := by
      cases answers with
      | nil => exact absurd rfl hne
      | cons x xs => rfl
    have hni : (normalizedVotes answers).isEmpty = false := by
      cases hsh : normalizedVotes answers with
      | nil => exact absurd hsh hnorm_ne
      | cons x xs => rfl
    simp only [vote_answers, he, Bool.false_eq_true, if_false, hni, hmc, hfind]

/-- Witness for C5: the parts with hypotheses applied at `["", ""]` (no
usable entry) and at `["8", "9"]` (a usable majority). -/
theorem C5_vote_majority_witness :
    (["ptr", ""].filter (fun a => a ≠ "") ≠ []) ∧
    (∃ w orig pre post,
      normalizedVotes ["ptr", ""] = pre ++ w :: post
      ∧ (∀ k ∈ normalizedVotes ["ptr", ""],
          countOcc (normalizedVotes ["ptr", ""]) k ≤ countOcc (normalizedVotes ["ptr", ""]) w)
      ∧ (∀ k ∈ pre,
          countOcc (normalizedVotes ["ptr", ""]) k < countOcc (normalizedVotes ["ptr", ""]) w)
      ∧ ["ptr", ""].find? (fun o => pyLower (pyStrip o) = w) = some orig
      ∧ vote_answers ["ptr", ""] =
          (some (pyStrip orig),
            (countOcc (normalizedVotes ["ptr", ""]) w : ℚ) /
              ((normalizedVotes ["ptr", ""]).length : ℚ))) ∧
    (["", ""].filter (fun a => a ≠ "") = []) ∧
    vote_answers ["", ""] = (none, 0) :=
  ⟨by decide,
   C5_vote_majority.2.2.2.2 ["ptr", ""] (by decide),
   by decide,
   C5_vote_majority.2.2.2.1 ["", ""] (by decide)⟩

/-!
## Claims about pattern extraction
-/

/-- An unresolvable supporting-fact reference produces no hop. -/
theorem mkHop_none (ctx : List (String × List String)) (total : Nat) (qt : String)
    (i : Nat) (r : String × Nat) (h : resolvableRef ctx r = false) :
    PatternExtractor.mkHop ctx total qt (i, r) = none := by
  unfold resolvableRef at h
  unfold PatternExtractor.mkHop
  dsimp only
  cases hctx : lookupCtx ctx r.1 with
  | none => rfl
  | some sentences =>
    rw [hctx] at h
    simp only [decide_eq_false_iff_not] at h
    simp [h]

/-- A resolvable supporting-fact reference produces a hop whose role is
computed from its index in the full reference list. -/
theorem mkHop_some_role (ctx : List (String × List String)) (total : Nat) (qt : String)
    (i : Nat) (r : String × Nat) (h : resolvableRef ctx r = true) :
    ∃ hop, PatternExtractor.mkHop ctx total qt (i, r) = some hop
      ∧ hop.role = PatternExtractor.determine_hop_role i total qt := by
  unfold resolvableRef at h
  unfold PatternExtractor.mkHop
  dsimp only
  cases hctx : lookupCtx ctx r.1 with
  | none => rw [hctx] at h; simp at h
  | some sentences =>
    rw [hctx] at h
    simp only [decide_eq_true_eq] at h
    dsimp only
    rw [if_pos h]
    refine ⟨_, rfl, ?_⟩
    rfl

/-- The roles of the surviving hops are the `determine_hop_role` images of
the original indices of the resolvable references. -/
theorem mkHop_roles (ctx : List (String × List String)) (total : Nat) (qt : String) :
    ∀ (sf : List (String × Nat)) (i : Nat),
      ((List.enumFrom i sf).filterMap (PatternExtractor.mkHop ctx total qt)).map
          (fun h => h.role)
        = ((List.enumFrom i sf).filter (fun p => resolvableRef ctx p.2)).map
            (fun p => PatternExtractor.determine_hop_role p.1 total qt) := by
  intro sf
  induction sf with
  | nil => intro i; rfl
  | cons r rest ih =>
    intro i
    by_cases hr : resolvableRef ctx r
    · obtain ⟨hop, hsome, hrole⟩ := mkHop_some_role ctx total qt i r hr
      simp [List.enumFrom, List.filterMap_cons, List.filter_cons, hsome, hr, hrole, ih]
    · have hf : resolvableRef ctx r = false := by simpa using hr
      simp [List.enumFrom, List.filterMap_cons, List.filter_cons, mkHop_none ctx total qt i r hf,
        hf, ih]

/-- Filtering the enumerated references by resolvability keeps as many
entries as filtering the references themselves. -/
theorem enumFrom_filter_resolvable_length (ctx : List (String × List String)) :
    ∀ (sf : List (String × Nat)) (i : Nat),
      ((List.enumFrom i sf).filter (fun p => resolvableRef ctx p.2)).length
        = (sf.filter (resolvableRef ctx)).length := by
  intro sf
  induction sf with
  | nil => intro i; rfl
  | cons r rest ih =>
    intro i
    by_cases hr : resolvableRef ctx r
    · simp [List.enumFrom, List.filter_cons, hr, ih]
    · have hf : resolvableRef ctx r = false := by simpa using hr
      simp [List.enumFrom, List.filter_cons, hf, ih]

/-- C7 counterexample: a bridge example whose first supporting fact is
out of range and whose other two resolve.  The two surviving hops get the
roles `["bridge", "final"]` — computed from their positions in the original
reference list — and not `["starter", "final"]`, the roles the claim assigns
by position among the surviving hops. -/
theorem C7_roles_counterexample :
    (PatternExtractor.extract_pattern "q1" "who?" "bridge" "easy"
        [("A", 5), ("A", 0), ("A", 1)] [("A", ["s0", "s1"])] "ans").hops.map
        (fun h => h.role) = ["bridge", "final"]
    ∧ (PatternExtractor.extract_pattern "q1" "who?" "bridge" "easy"
        [("A", 5), ("A", 0), ("A", 1)] [("A", ["s0", "s1"])] "ans").hops.map
        (fun h => h.role) ≠ ["starter", "final"] := by
  constructor
  · decide
  · decide

/-- C7 amended: an unresolvable supporting-fact reference (document missing
from the context, or sentence index out of range) is silently skipped and
extraction goes on — the hop count is the count of resolvable references —
and every surviving hop receives the role computed from its index in the
ORIGINAL supporting-facts list (not among the surviving hops); in particular
a bridge example whose 3 supporting facts all resolve gets roles
`[starter, bridge, final]` in order. -/
theorem C7_roles_amended :
    (∀ (question_id question question_type level : String)
        (supporting_facts : List (String × Nat))
        (context : List (String × List String)) (answer : String),
      (PatternExtractor.extract_pattern question_id question question_type level
          supporting_facts context answer).hops.map (fun h => h.role)
        = (supporting_facts.enum.filter (fun p => resolvableRef context p.2)).map
            (fun p => PatternExtractor.determine_hop_role p.1
              supporting_facts.length question_type))
    ∧ (∀ (question_id question question_type level : String)
        (supporting_facts : List (String × Nat))
        (context : List (String × List String)) (answer : String),
      (PatternExtractor.extract_pattern question_id question question_type level
          supporting_facts context answer).hops.length
        = (supporting_facts.filter (resolvableRef context)).length)
    ∧ (∀ (question_id question level : String)
        (supporting_facts : List (String × Nat))
        (context : List (String × List String)) (answer : String),
        supporting_facts.length = 3 →
        (∀ r ∈ supporting_facts, resolvableRef context r = true) →
        (PatternExtractor.extract_pattern question_id question "bridge" level
            supporting_facts context answer).hops.map (fun h => h.role)
          = ["starter", "bridge", "final"]) := by
  have main : ∀ (question_id question question_type level : String)
      (supporting_facts : List (String × Nat))
      (context : List (String × List String)) (answer : String),
      (PatternExtractor.extract_pattern question_id question question_type level
          supporting_facts context answer).hops.map (fun h => h.role)
        = (supporting_facts.enum.filter (fun p => resolvableRef context p.2)).map
            (fun p => PatternExtractor.determine_hop_role p.1
              supporting_facts.length question_type) := by
    intro question_id question question_type level supporting_facts context answer
    exact mkHop_roles context supporting_facts.length question_type supporting_facts 0
  refine ⟨main, ?_, ?_⟩
  · intro question_id question question_type level supporting_facts context answer
    have h := congrArg List.length
      (main question_id question question_type level supporting_facts context answer)
    rw [List.length_map, List.length_map] at h
    rw [h]
    exact enumFrom_filter_resolvable_length context supporting_facts 0
  · intro question_id question level supporting_facts context answer hlen hres
    obtain ⟨a, b, c, rfl⟩ := List.length_eq_three.mp hlen
    rw [main]
    have ha := hres a (by simp)
    have hb := hres b (by simp)
    have hc := hres c (by simp)
    show ((List.enumFrom 0 [a, b, c]).filter (fun p => resolvableRef context p.2)).map _ = _
    simp [List.enumFrom, List.filter_cons, List.filter_nil, ha, hb, hc,
      PatternExtractor.determine_hop_role]

/-- Witness for C7 amended: a bridge example with three resolvable
supporting facts gets roles `[starter, bridge, final]`. -/
theorem C7_roles_amended_witness :
    (([("A", 0), ("A", 1), ("B", 0)] : List (String × Nat)).length = 3)
    ∧ (∀ r ∈ ([("A", 0), ("A", 1), ("B", 0)] : List (String × Nat)),
        resolvableRef [("A", ["s0", "s1"]), ("B", ["t0"])] r = true)
    ∧ (PatternExtractor.extract_pattern "q2" "which one?" "bridge" "easy"
        [("A", 0), ("A", 1), ("B", 0)] [("A", ["s0", "s1"]), ("B", ["t0"])] "x").hops.map
        (fun h => h.role) = ["starter", "bridge", "final"] :=
  ⟨by decide, by decide,
    C7_roles_amended.2.2 "q2" "which one?" "easy"
      [("A", 0), ("A", 1), ("B", 0)] [("A", ["s0", "s1"]), ("B", ["t0"])] "x"
      (by decide) (by decide)⟩

/-!
## Claims about the answer normalizer
-/

/-- C8: `normalize_answer` maps `"$  1,234.50"` with a cost question to
`"1234.50"` and `"#### 7"` with a how-many question to `"7"`; in general,
after markdown cleaning, a failed numeric parse returns the cleaned string
(stripped), a `how many` question gets the integer (truncated) form, a
currency question (dollar sign in the question, or `dollar`/`cost`/`price`
in its lowercase) gets the two-decimal form, and otherwise the integer form
when the value is whole and the decimal form when it is not. -/
theorem C8_normalize_answer :
    normalize_answer "$  1,234.50" "What is the total cost?" = "1234.50"
    ∧ normalize_answer "#### 7" "How many apples?" = "7"
    ∧ (∀ answer question : String,
        parsedNumOf (cleanAnswer answer) = none →
        normalize_answer answer question = pyStrip (cleanAnswer answer))
    ∧ (∀ (answer question : String) (num : PyNum),
        parsedNumOf (cleanAnswer answer) = some num →
        strContains (pyLower question) "how many" = true →
        normalize_answer answer question = toString num.trunc)
    ∧ (∀ (answer question : String) (num : PyNum),
        parsedNumOf (cleanAnswer answer) = some num →
        strContains (pyLower question) "how many" = false →
        currencyQuestion question = true →
        normalize_answer answer question = formatFixed2 num.toDec)
    ∧ (∀ (answer question : String) (num : PyNum),
        parsedNumOf (cleanAnswer answer) = some num →
        strContains (pyLower question) "how many" = false →
        currencyQuestion question = false →
        normalize_answer answer question =
          (match num with
           | .intVal n => toString n
           | .floatVal d => if d.isInteger then toString d.trunc else renderFloat d)) := by
  refine ⟨by decide, by decide, ?_, ?_, ?_, ?_⟩
  · intro answer question hnone
    simp [normalize_answer, hnone]
  · intro answer question num hsome hhm
    simp [normalize_answer, hsome, hhm]
  · intro answer question num hsome hhm hcur
    simp [normalize_answer, hsome, hhm, hcur]
  · intro answer question num hsome hhm hcur
    simp [normalize_answer, hsome, hhm, hcur]

/-- Witness for C8: the general branches applied to concrete answers — a
non-numeric answer, an integer how-many answer, a currency amount, and a
plain non-integer decimal. -/
theorem C8_normalize_answer_witness :
    (parsedNumOf (cleanAnswer "abc") = none
      ∧ normalize_answer "abc" "What?" = pyStrip (cleanAnswer "abc"))
    ∧ (parsedNumOf (cleanAnswer "#### 7") = some (.intVal 7)
      ∧ strContains (pyLower "How many apples?") "how many" = true
      ∧ normalize_answer "#### 7" "How many apples?" = toString (PyNum.intVal 7).trunc)
    ∧ (parsedNumOf (cleanAnswer "$  1,234.50") = some (.floatVal { mant := 123450, scale := 2 })
      ∧ strContains (pyLower "What is the total cost?") "how many" = false
      ∧ currencyQuestion "What is the total cost?" = true
      ∧ normalize_answer "$  1,234.50" "What is the total cost?" =
          formatFixed2 (PyNum.floatVal { mant := 123450, scale := 2 }).toDec)
    ∧ (parsedNumOf (cleanAnswer "3.140") = some (.floatVal { mant := 3140, scale := 3 })
      ∧ strContains (pyLower "What is pi roughly?") "how many" = false
      ∧ currencyQuestion "What is pi roughly?" = false
      ∧ normalize_answer "3.140" "What is pi roughly?" =
          (match PyNum.floatVal { mant := 3140, scale := 3 } with
           | .intVal n => toString n
           | .floatVal d => if d.isInteger then toString d.trunc else renderFloat d)) :=
  ⟨⟨by decide, C8_normalize_answer.2.2.1 "abc" "What?" (by decide)⟩,
   ⟨by decide, by decide,
    C8_normalize_answer.2.2.2.1 "#### 7" "How many apples?" (.intVal 7) (by decide) (by decide)⟩,
   ⟨by decide, by decide, by decide,
    C8_normalize_answer.2.2.2.2.1 "$  1,234.50" "What is the total cost?"
      (.floatVal { mant := 123450, scale := 2 }) (by decide) (by decide) (by decide)⟩,
   ⟨by decide, by decide, by decide,
    C8_normalize_answer.2.2.2.2.2 "3.140" "What is pi roughly?"
      (.floatVal { mant := 3140, scale := 3 }) (by decide) (by decide) (by decide)⟩⟩

/-!
## Claims about the semantic index
-/

/-- Reading a list back at the indices `0, ..., length-1` returns the list. -/
theorem range_filterMap_get {α : Type} (l : List α) :
    (List.range l.length).filterMap l.get? = l := by
  induction l with
  | nil => rfl
  | cons a t ih =>
    rw [List.length_cons, List.range_succ_eq_map]
    rw [List.filterMap_cons, List.filterMap_map]
    have h0 : (a :: t).get? 0 = some a := rfl
    rw [h0]
    have hf : ((a :: t).get? ∘ Nat.succ) = t.get? := by
      funext i
      rfl
    rw [hf, ih]

/-- C6: `SemanticIndex.search` returns the empty list — rather than failing —
on an unknown question type, on a level absent from the per-type index dict
(or stored as `None`), and on a category with no stored examples; and when
`k` is at least the number of stored examples of a category whose index
matrix matches its example list (the build invariant), the clamped search
returns exactly the available examples (a permutation of them). -/
theorem C6_search_safe (s : SemanticIndex) (query : List ℚ)
    (question_type level : String) (k : Nat) :
    (s.indices question_type = none → s.search query question_type level k = [])
    ∧ (∀ inner, s.indices question_type = some inner → inner level = none →
        s.search query question_type level k = [])
    ∧ (s.indexed_examples question_type level = [] →
        s.search query question_type level k = [])
    ∧ (∀ inner idx, s.indices question_type = some inner → inner level = some idx →
        idx.vectors.length = (s.indexed_examples question_type level).length →
        (s.indexed_examples question_type level).length ≤ k →
        List.Perm (s.search query question_type level k)
          (s.indexed_examples question_type level)) := by
  refine ⟨?_, ?_, ?_, ?_⟩
  · intro h
    simp [SemanticIndex.search, h]
  · intro inner h1 h2
    simp [SemanticIndex.search, h1, h2]
  · intro hempty
    cases h1 : s.indices question_type with
    | none => simp [SemanticIndex.search, h1]
    | some inner =>
      cases h2 : inner level with
      | none => simp [SemanticIndex.search, h1, h2]
      | some idx => simp [SemanticIndex.search, h1, h2, hempty]
  · intro inner idx h1 h2 hlen hk
    simp only [SemanticIndex.search, h1, h2]
    by_cases h0 : (s.indexed_examples question_type level).length = 0
    · have hempty : s.indexed_examples question_type level = [] :=
        List.length_eq_zero.mp h0
      simp [h0, hempty]
    · simp only [h0, if_false]
      have hmin : min k (s.indexed_examples question_type level).length
          = (s.indexed_examples question_type level).length := min_eq_right hk
      rw [hmin]
      have hslen : (idx.vectors.map (fun v => dotQ query v)).length
          = (s.indexed_examples question_type level).length := by
        rw [List.length_map, hlen]
      have hperm : List.Perm
          (idx.search query (s.indexed_examples question_type level).length)
          (List.range (s.indexed_examples question_type level).length) := by
        unfold FaissFlatIndex.search argsortDesc
        have hall : (List.insertionSort
            (fun i j => (idx.vectors.map (fun v => dotQ query v)).getD j 0
              ≤ (idx.vectors.map (fun v => dotQ query v)).getD i 0)
            (List.range (idx.vectors.map (fun v => dotQ query v)).length)).length
            ≤ (s.indexed_examples question_type level).length := by
          rw [List.length_insertionSort, List.length_range, hslen]
        rw [List.take_of_length_le hall, hslen]
        exact List.perm_insertionSort _ _
      have hfinal := hperm.filterMap
        (fun i => (s.indexed_examples question_type level).get? i)
      rw [show (List.range (s.indexed_examples question_type level).length).filterMap
            (fun i => (s.indexed_examples question_type level).get? i)
          = s.indexed_examples question_type level from
          range_filterMap_get (s.indexed_examples question_type level)] at hfinal
      exact hfinal

/-- A one-example, one-vector index used to witness the search claims. -/
def c6Example : IndexedExample :=
  { id := "e1", question := "who?", question_type := "bridge", level := "easy",
    pattern :=
      { question_id := "e1", question := "who?", question_type := "bridge",
        level := "easy", num_hops := 0, hops := [] },
    embedding := [1] }

/-- The inner per-level dict of the witness index. -/
def c6Inner : String → Option FaissFlatIndex :=
  fun level => if level = "easy" then some { vectors := [[1]] } else none

/-- The witness `SemanticIndex`: one `bridge`/`easy` example. -/
def c6Index : SemanticIndex :=
  { dimension := 1,
    indices := fun q_type => if q_type = "bridge" then some c6Inner else none,
    indexed_examples := fun q_type level =>
      if q_type = "bridge" ∧ level = "easy" then [c6Example] else [] }

/-- Witness for C6: unknown category, empty category, and an over-sized `k`
on the one-example category. -/
theorem C6_search_safe_witness :
    (c6Index.indices "comparison" = none
      ∧ c6Index.search [1] "comparison" "easy" 5 = [])
    ∧ (c6Index.indexed_examples "bridge" "medium" = []
      ∧ c6Index.search [1] "bridge" "medium" 5 = [])
    ∧ (c6Index.indices "bridge" = some c6Inner
      ∧ c6Inner "easy" = some { vectors := [[1]] }
      ∧ (FaissFlatIndex.mk [[1]]).vectors.length
          = (c6Index.indexed_examples "bridge" "easy").length
      ∧ (c6Index.indexed_examples "bridge" "easy").length ≤ 5
      ∧ List.Perm (c6Index.search [1] "bridge" "easy" 5)
          (c6Index.indexed_examples "bridge" "easy")) :=
  ⟨⟨rfl, (C6_search_safe c6Index [1] "comparison" "easy" 5).1 rfl⟩,
   ⟨rfl, (C6_search_safe c6Index [1] "bridge" "medium" 5).2.2.1 rfl⟩,
   ⟨rfl, rfl, rfl, by decide,
    (C6_search_safe c6Index [1] "bridge" "easy" 5).2.2.2 c6Inner
      (FaissFlatIndex.mk [[1]]) rfl rfl rfl (by decide)⟩⟩

/-!
## Claims about persisted-index loading
-/

/-- A two-entry example payload used to exhibit an unvalidated load. -/
def c9Example : IndexedExample :=
  { id := "e9", question := "where?", question_type := "bridge", level := "easy",
    pattern :=
      { question_id := "e9", question := "where?", question_type := "bridge",
        level := "easy", num_hops := 0, hops := [] },
    embedding := [1, 0] }

/-- On-disk faiss index files for the counterexample: one stored vector for
`bridge`/`easy`. -/
def c9Files : String → String → Option FaissFlatIndex :=
  fun q_type level =>
    if q_type = "bridge" ∧ level = "easy" then some { vectors := [[1, 0]] } else none

/-- A malformed pickled example payload: two examples for `bridge`/`easy`,
although the corresponding index file holds a single vector. -/
def c9BadExamples : String → String → List IndexedExample :=
  fun q_type level =>
    if q_type = "bridge" ∧ level = "easy" then [c9Example, c9Example] else []

/-- C9 counterexample: `SemanticIndex.load` accepts a cached state whose
example count does not match the stored index row count — no validation, no
rebuild — and a subsequent search silently uses the mismatched state
(returning one neighbor out of two stored examples); moreover a missing
examples pickle is a hard failure of `load`, not a recompute.  Both refute
the claim that malformed cached state is detected at load time in both
pipelines. -/
theorem C9_load_validation_counterexample :
    (∃ s2 : SemanticIndex,
      (SemanticIndex.init 2).load c9Files (.content c9BadExamples) = .ok s2
      ∧ s2.indexed_examples "bridge" "easy" = [c9Example, c9Example]
      ∧ (∃ inner idx, s2.indices "bridge" = some inner ∧ inner "easy" = some idx
          ∧ idx.vectors.length ≠ (s2.indexed_examples "bridge" "easy").length)
      ∧ s2.search [1, 0] "bridge" "easy" 5 = [c9Example])
    ∧ (SemanticIndex.init 2).load c9Files .missing = .error "FileNotFoundError" :=
  ⟨⟨_, rfl, rfl, ⟨_, _, rfl, rfl, by decide⟩, rfl⟩, rfl⟩

/-- C9 amended: the math-solver retriever cache is validated at load time —
`_load_or_compute_embeddings` uses a cached object only when it is a numpy
array of non-object dtype with `ndim = 2` and a row count equal to the
training-set size, and in every other case (missing file, unpickling error,
non-array, object dtype, wrong shape) it recomputes without failing.  (The
multi-hop `SemanticIndex.load` performs no such validation; see the
counterexample.) -/
theorem C9_cache_validation_amended :
    (∀ (file : CacheFile) (n : Nat) (v : CachedVal),
      FewShotRetriever.load_or_compute_embeddings file n = .cached v →
      v = .ndarray 2 n false)
    ∧ (∀ (file : CacheFile) (n : Nat),
      FewShotRetriever.load_or_compute_embeddings file n = .cached (.ndarray 2 n false)
      ∨ FewShotRetriever.load_or_compute_embeddings file n = .recomputed) := by
  constructor
  · intro file n v h
    cases file with
    | missing => simp [FewShotRetriever.load_or_compute_embeddings] at h
    | unreadable => simp [FewShotRetriever.load_or_compute_embeddings] at h
    | content v0 =>
      cases v0 with
      | other => simp [FewShotRetriever.load_or_compute_embeddings] at h
      | ndarray ndim shape0 objD =>
        simp only [FewShotRetriever.load_or_compute_embeddings] at h
        by_cases ho : objD = true
        · simp [ho] at h
        · have ho' : objD = false := by simpa using ho
          by_cases hc : ndim = 2 ∧ shape0 = n
          · obtain ⟨h2, hn⟩ := hc
            subst h2
            subst hn
            simp [ho'] at h
            exact h.symm
          · simp [ho', hc] at h
  · intro file n
    cases file with
    | missing => exact Or.inr rfl
    | unreadable => exact Or.inr rfl
    | content v0 =>
      cases v0 with
      | other => exact Or.inr rfl
      | ndarray ndim shape0 objD =>
        by_cases ho : objD = true
        · right
          simp [FewShotRetriever.load_or_compute_embeddings, ho]
        · have ho' : objD = false := by simpa using ho
          by_cases hc : ndim = 2 ∧ shape0 = n
          · left
            obtain ⟨h2, hn⟩ := hc
            subst h2
            subst hn
            simp [FewShotRetriever.load_or_compute_embeddings, ho']
          · right
            simp [FewShotRetriever.load_or_compute_embeddings, ho', hc]

/-- Witness for C9 amended: a well-formed cached array for a four-question
training set is used, and the theorem pins its shape. -/
theorem C9_cache_validation_amended_witness :
    FewShotRetriever.load_or_compute_embeddings (.content (.ndarray 2 4 false)) 4
      = .cached (.ndarray 2 4 false)
    ∧ (CachedVal.ndarray 2 4 false) = .ndarray 2 4 false :=
  ⟨by decide,
   C9_cache_validation_amended.1 (.content (.ndarray 2 4 false)) 4
     (.ndarray 2 4 false) (by decide)⟩
